import Mathlib

/-!
Verification of the workspace-binding and model-catalog core of the
openwork desktop application (main-process IPC module `models.ts`).

The TypeScript source is shallowly embedded: strings are Lean `String`
(a list of characters), JavaScript truthiness on strings and nullable
values is made explicit, fallible filesystem and network operations are
modelled with `Except` / `Option` parameters, and the module-level
mutable caches become explicit state records threaded through the
functions.  Timestamps are integers (milliseconds).
-/

/-- JS `s.startsWith(p)`: `p` is a prefix of the character sequence of `s`. -/
def strStartsWith (s p : String) : Bool := p.data.isPrefixOf s.data

/-- JS `s.endsWith(p)`: `p` is a suffix of the character sequence of `s`. -/
def strEndsWith (s p : String) : Bool := p.data.isSuffixOf s.data

/-- JS `s.slice(1)`: drop the first character. -/
def sliceFrom1 (s : String) : String := String.mk (s.data.drop 1)

/-- JS `s.toLowerCase()` on ASCII model names. -/
def strToLower (s : String) : String := String.mk (s.data.map Char.toLower)

/-- JS `s.toUpperCase()` on ASCII tags. -/
def strToUpper (s : String) : String := String.mk (s.data.map Char.toUpper)

/-- JS `word.charAt(0).toUpperCase() + word.slice(1)`. -/
def capitalizeWord (w : String) : String :=
  match w.data with
  | [] => ""
  | c :: rest => String.mk (c.toUpper :: rest)

/-- JS `String.prototype.split` against a character class: splits on every
delimiter character, keeping empty pieces, never dropping the last piece. -/
def splitOnPred (p : Char → Bool) (s : String) : List String :=
  go [] s.data
where
  go (cur : List Char) : List Char → List String
    | [] => [String.mk cur.reverse]
    | c :: rest => if p c then String.mk cur.reverse :: go [] rest else go (c :: cur) rest

/-- JS `modelName.split(':')[0]`: the text before the first colon
(the whole string when there is no colon). -/
def beforeColon (s : String) : String := String.mk (s.data.takeWhile (fun c => c ≠ ':'))

/-- JS truthiness of a nullable string: `null`, `undefined` and `""` are falsy. -/
def truthyStr : Option String → Option String
  | none => none
  | some s => if s = "" then none else some s

/-- JS `a || b` on strings, where only `""` is falsy. -/
def jsOrS (a b : String) : String := if a = "" then b else a

/-! ## POSIX path resolution (Node's `path.join` / `path.resolve` on
absolute inputs): split on `/`, drop empty and `.` segments, let `..`
pop the previous segment (or vanish at the root). -/

/-- Process normalized path segments left to right over a reversed
accumulator of already-kept segments. -/
def normSegs : List String → List String → List String
  | acc, [] => acc.reverse
  | acc, s :: rest =>
    if s = "" ∨ s = "." then normSegs acc rest
    else if s = ".." then normSegs acc.tail rest
    else normSegs (s :: acc) rest

/-- Node `path.resolve` on an absolute POSIX path: canonical form with no
`.`/`..`/empty segments, a single leading `/`, no trailing `/`. -/
def posixResolve (s : String) : String :=
  "/" ++ String.intercalate "/" (normSegs [] (splitOnPred (fun c => c = '/') s))

/-- Node `path.join(a, b)` for an absolute `a`: concatenate with a
separator and normalize. -/
def posixJoin (a b : String) : String := posixResolve (a ++ "/" ++ b)

/-- Containment in the directory-tree sense: `p` is the root itself or a
descendant of it (`root ++ "/"` is a prefix of `p`).  This is the notion
of "inside the workspace" the specification's safety sentence speaks
about, to be compared with the string-prefix check the code performs. -/
def isWithin (root p : String) : Bool := p == root || strStartsWith p (root ++ "/")

/-! ## Model catalog data -/

/-- `ModelConfig` record from `../types`, as used by the catalog module. -/
structure ModelConfig where
  id : String
  name : String
  provider : String
  model : String
  description : String
  available : Bool
  ollamaMode : Option String := none
deriving Repr, DecidableEq

/-- Static `AVAILABLE_MODELS` table from the source. -/
def AVAILABLE_MODELS : List ModelConfig := [
  { id := "claude-opus-4-5-20251101", name := "Claude Opus 4.5", provider := "anthropic",
    model := "claude-opus-4-5-20251101",
    description := "Premium model with maximum intelligence", available := true },
  { id := "claude-sonnet-4-5-20250929", name := "Claude Sonnet 4.5", provider := "anthropic",
    model := "claude-sonnet-4-5-20250929",
    description := "Best balance of intelligence, speed, and cost for agents", available := true },
  { id := "claude-haiku-4-5-20251001", name := "Claude Haiku 4.5", provider := "anthropic",
    model := "claude-haiku-4-5-20251001",
    description := "Fastest model with near-frontier intelligence", available := true },
  { id := "claude-opus-4-1-20250805", name := "Claude Opus 4.1", provider := "anthropic",
    model := "claude-opus-4-1-20250805",
    description := "Previous generation premium model with extended thinking", available := true },
  { id := "claude-sonnet-4-20250514", name := "Claude Sonnet 4", provider := "anthropic",
    model := "claude-sonnet-4-20250514",
    description := "Fast and capable previous generation model", available := true },
  { id := "gpt-5.2", name := "GPT-5.2", provider := "openai", model := "gpt-5.2",
    description := "Latest flagship with enhanced coding and agentic capabilities",
    available := true },
  { id := "gpt-5.1", name := "GPT-5.1", provider := "openai", model := "gpt-5.1",
    description := "Advanced reasoning and robust performance", available := true },
  { id := "o3", name := "o3", provider := "openai", model := "o3",
    description := "Advanced reasoning for complex problem-solving", available := true },
  { id := "o3-mini", name := "o3 Mini", provider := "openai", model := "o3-mini",
    description := "Cost-effective reasoning with faster response times", available := true },
  { id := "o4-mini", name := "o4 Mini", provider := "openai", model := "o4-mini",
    description := "Fast, efficient reasoning model succeeding o3", available := true },
  { id := "o1", name := "o1", provider := "openai", model := "o1",
    description := "Premium reasoning for research, coding, math and science", available := true },
  { id := "gpt-4.1", name := "GPT-4.1", provider := "openai", model := "gpt-4.1",
    description := "Strong instruction-following with 1M context window", available := true },
  { id := "gpt-4.1-mini", name := "GPT-4.1 Mini", provider := "openai", model := "gpt-4.1-mini",
    description := "Faster, smaller version balancing performance and efficiency",
    available := true },
  { id := "gpt-4.1-nano", name := "GPT-4.1 Nano", provider := "openai", model := "gpt-4.1-nano",
    description := "Most cost-efficient for lighter tasks", available := true },
  { id := "gpt-4o", name := "GPT-4o", provider := "openai", model := "gpt-4o",
    description := "Versatile model for text generation and comprehension", available := true },
  { id := "gpt-4o-mini", name := "GPT-4o Mini", provider := "openai", model := "gpt-4o-mini",
    description := "Cost-efficient variant with faster response times", available := true },
  { id := "gemini-3-pro-preview", name := "Gemini 3 Pro Preview", provider := "google",
    model := "gemini-3-pro-preview",
    description := "State-of-the-art reasoning and multimodal understanding", available := true },
  { id := "gemini-2.5-pro", name := "Gemini 2.5 Pro", provider := "google",
    model := "gemini-2.5-pro",
    description := "High-capability model for complex reasoning and coding", available := true },
  { id := "gemini-2.5-flash", name := "Gemini 2.5 Flash", provider := "google",
    model := "gemini-2.5-flash",
    description := "Lightning-fast with balance of intelligence and latency", available := true },
  { id := "gemini-2.5-flash-lite", name := "Gemini 2.5 Flash Lite", provider := "google",
    model := "gemini-2.5-flash-lite",
    description := "Fast, low-cost, high-performance model", available := true },
  { id := "gpt-oss:120b-cloud", name := "GPT-OSS 120B Cloud", provider := "ollama-cloud",
    model := "gpt-oss:120b-cloud",
    description := "Open-source GPT model with 120B parameters on cloud", available := true,
    ollamaMode := some "cloud" },
  { id := "gpt-oss:20b-cloud", name := "GPT-OSS 20B Cloud", provider := "ollama-cloud",
    model := "gpt-oss:20b-cloud",
    description := "Open-source GPT model with 20B parameters on cloud", available := true,
    ollamaMode := some "cloud" },
  { id := "qwen3-coder:480b-cloud", name := "Qwen3 Coder 480B Cloud", provider := "ollama-cloud",
    model := "qwen3-coder:480b-cloud",
    description := "Specialized coding model with 480B parameters on cloud", available := true,
    ollamaMode := some "cloud" },
  { id := "deepseek-v3.1:671b-cloud", name := "DeepSeek v3.1 671B Cloud",
    provider := "ollama-cloud", model := "deepseek-v3.1:671b-cloud",
    description := "Advanced model with 671B parameters on cloud", available := true,
    ollamaMode := some "cloud" },
  { id := "qwen3-vl:235b-cloud", name := "Qwen3 VL 235B Cloud", provider := "ollama-cloud",
    model := "qwen3-vl:235b-cloud",
    description := "Vision-language model with 235B parameters on cloud", available := true,
    ollamaMode := some "cloud" }
]

/-- `formatModelName`: strip a trailing `:cloud`, split on `-`, `_`, `:`,
capitalize each piece, join with spaces. -/
def formatModelName (name : String) : String :=
  let withoutSuffix :=
    if strEndsWith name ":cloud" then String.mk (name.data.take (name.data.length - 6)) else name
  String.intercalate " "
    ((splitOnPred (fun c => c = '-' || c = '_' || c = ':') withoutSuffix).map capitalizeWord)

/-- `formatLocalModelName`: split on `:` into base name and tag; title-case
the base name on `-`, `_`, `.` boundaries; append the upper-cased tag in
parentheses when present. -/
def formatLocalModelName (name : String) : String :=
  let parts := splitOnPred (fun c => c = ':') name
  let modelName := jsOrS (parts.headD "") name
  let tag := parts.getD 1 ""
  let formattedName := String.intercalate " "
    ((splitOnPred (fun c => c = '-' || c = '_' || c = '.') modelName).map capitalizeWord)
  if tag ≠ "" then formattedName ++ " (" ++ strToUpper tag ++ ")" else formattedName

/-- `supportsToolCalling`: lowercased text before the first `:` matched
against the fixed allow-list of tool-calling model families. -/
def supportsToolCalling (modelName : String) : Bool :=
  let baseName := strToLower (beforeColon modelName)
  if strStartsWith baseName "llama3.1" || strStartsWith baseName "llama3.2" ||
     strStartsWith baseName "llama3.3" then true
  else if strStartsWith baseName "qwen3" || strStartsWith baseName "qwen2.5" ||
     strStartsWith baseName "qwen2" || strStartsWith baseName "qwq" then true
  else if baseName == "mistral" || strStartsWith baseName "mistral-small" ||
     strStartsWith baseName "mistral-nemo" || strStartsWith baseName "ministral-3" then true
  else if strStartsWith baseName "deepseek-r1" then true
  else if baseName == "functiongemma" then true
  else if strStartsWith baseName "gpt-oss" then true
  else if strStartsWith baseName "devstral-small-2" || strStartsWith baseName "devstral-2" then true
  else if strStartsWith baseName "smollm2" then true
  else false

/-! ## Discovery caches -/

/-- The module-level mutable cache pair for one dynamic source
(`ollamaModelsCache` / `ollamaModelsCacheTime`, resp. the local pair). -/
structure CacheState where
  cache : List ModelConfig
  cacheTime : Int
deriving Repr, DecidableEq

/-- `OLLAMA_CACHE_TTL = 5 * 60 * 1000`. -/
def OLLAMA_CACHE_TTL : Int := 5 * 60 * 1000

/-- One entry of a parsed cloud discovery response body (after the three
tolerated shapes `{data}`, `{models}`, bare array have been normalized to
a list); absent JSON fields are the empty string, which is what JS `||`
chains on them observe. -/
structure RawCloudModel where
  id : String := ""
  name : String := ""
  model : String := ""
  description : String := ""
deriving Repr, DecidableEq

/-- One entry of a local `/api/tags` response body. -/
structure RawLocalModel where
  name : String
deriving Repr, DecidableEq

/-- `fetchOllamaCloudModels`, with the ambient state explicit: the stored
API key, the current clock, the cache pair, and the parsed network
response (`none` models a non-ok status or a thrown fetch error).
Returns the produced model list, the new cache state, and whether a
network fetch was performed. -/
def fetchOllamaCloudModels (apiKey : Option String) (now : Int) (st : CacheState)
    (net : Option (List RawCloudModel)) : List ModelConfig × CacheState × Bool :=
  match truthyStr apiKey with
  | none => ([], st, false)
  | some _ =>
    if st.cache.length > 0 ∧ now - st.cacheTime < OLLAMA_CACHE_TTL then (st.cache, st, false)
    else
      match net with
      | none => ([], st, true)
      | some models =>
        let ollamaModels : List ModelConfig := models.map (fun m =>
          let modelId := jsOrS (jsOrS m.id m.name) m.model
          let modelName := jsOrS (jsOrS m.name m.id) modelId
          { id := modelId, name := formatModelName modelName, provider := "ollama-cloud",
            model := modelId,
            description := jsOrS m.description ("Ollama Cloud model: " ++ modelName),
            available := true, ollamaMode := some "cloud" })
        (ollamaModels, { cache := ollamaModels, cacheTime := now }, true)

/-- `fetchOllamaLocalModels`, with the ambient state explicit as above;
`net = none` models a non-ok status, a timeout abort, or any thrown
fetch error. -/
def fetchOllamaLocalModels (now : Int) (st : CacheState)
    (net : Option (List RawLocalModel)) : List ModelConfig × CacheState × Bool :=
  if st.cache.length > 0 ∧ now - st.cacheTime < OLLAMA_CACHE_TTL then (st.cache, st, false)
  else
    match net with
    | none => ([], st, true)
    | some models =>
      let allModels : List ModelConfig :=
        (models.filter (fun m => !(strEndsWith m.name ":cloud"))).map (fun m =>
          { id := m.name, name := formatLocalModelName m.name, provider := "ollama-local",
            model := m.name,
            description := "Local Ollama model: " ++ formatLocalModelName m.name,
            available := true, ollamaMode := some "local" })
      let localModels := allModels.filter (fun m => supportsToolCalling m.id)
      (localModels, { cache := localModels, cacheTime := now }, true)

/-- The availability recomputation the `models:list` handler maps over the
merged list: local-mode entries are always available, every other entry
is available iff a credential is stored for its provider. -/
def recomputeAvail (hasApiKey : String → Bool) (model : ModelConfig) : ModelConfig :=
  { model with available := if model.ollamaMode == some "local" then true
                            else hasApiKey model.provider }

/-- The `models:list` handler, parameterized by the two dynamic fetch
results (each already defaulted to `[]` when its settled promise was
rejected) and by the credential-store lookup. -/
def modelsList (ollamaCloudModels ollamaLocalModels : List ModelConfig)
    (hasApiKey : String → Bool) : List ModelConfig :=
  let staticModels :=
    if ollamaCloudModels.length > 0 ∨ ollamaLocalModels.length > 0 then
      AVAILABLE_MODELS.filter
        (fun m => m.provider != "ollama-local" && m.provider != "ollama-cloud")
    else AVAILABLE_MODELS
  let allModels := staticModels ++ ollamaCloudModels ++ ollamaLocalModels
  allModels.map (recomputeAvail hasApiKey)

/-! ## Per-thread workspace binding -/

/-- Parsed thread metadata JSON object: the core-owned `workspacePath` key
(absent and JSON `null` coincide for every read the core performs) plus
the unrecognized keys it must preserve. -/
structure Metadata where
  workspacePath : Option String := none
  rest : List (String × String) := []
deriving Repr, DecidableEq

/-- A thread row as the core sees it: the metadata column, `none` when the
column is NULL. -/
structure ThreadRec where
  metadata : Option Metadata := none
deriving Repr, DecidableEq

/-- The thread store collaborator `getThread`, as a lookup by identifier. -/
def ThreadStore := String → Option ThreadRec

/-- The settings store, restricted to the one key the workspace binding
uses (`workspacePath`, the global fallback binding). -/
structure Settings where
  workspacePath : Option String := none
deriving Repr, DecidableEq

/-- Observable side effects of the binding handlers: a thread-metadata
write, or a watcher start/stop. -/
inductive Effect where
  | updateThread (threadId : String) (metadata : Metadata)
  | startWatching (threadId : String) (path : String)
  | stopWatching (threadId : String)
deriving Repr, DecidableEq

/-- Result of the `workspace:set` handler: the value returned over IPC,
the two stores after the call, and the effects performed, in order. -/
structure SetResult where
  returned : Option String
  settings : Settings
  threads : ThreadStore
  effects : List Effect

/-- The `workspace:get` handler: with no (truthy) thread id, the global
fallback setting; otherwise `metadata.workspacePath || null` from the
thread row, `null` when the thread or its metadata is missing. -/
def workspaceGet (settings : Settings) (threads : ThreadStore)
    (threadId : Option String) : Option String :=
  match truthyStr threadId with
  | none => settings.workspacePath
  | some tid =>
    match threads tid with
    | none => none
    | some t =>
      match t.metadata with
      | none => none
      | some metadata => truthyStr metadata.workspacePath

/-- The `workspace:set` handler: with no (truthy) thread id it mutates the
global fallback setting only; otherwise it merges `workspacePath` into the
thread metadata, writes the row back, and starts or stops the watcher
according to the truthiness of the new path.  A missing thread returns
`null` before any mutation. -/
def workspaceSet (settings : Settings) (threads : ThreadStore)
    (threadId : Option String) (newPath : Option String) : SetResult :=
  match truthyStr threadId with
  | none =>
    match truthyStr newPath with
    | some p =>
      { returned := newPath, settings := { settings with workspacePath := some p },
        threads := threads, effects := [] }
    | none =>
      { returned := newPath, settings := { settings with workspacePath := none },
        threads := threads, effects := [] }
  | some tid =>
    match threads tid with
    | none => { returned := none, settings := settings, threads := threads, effects := [] }
    | some t =>
      let metadata := t.metadata.getD {}
      let metadata2 : Metadata := { metadata with workspacePath := newPath }
      let threads2 : ThreadStore :=
        fun id => if id = tid then some { metadata := some metadata2 } else threads id
      let watchEff : Effect :=
        match truthyStr newPath with
        | some p => .startWatching tid p
        | none => .stopWatching tid
      { returned := newPath, settings := settings, threads := threads2,
        effects := [.updateThread tid metadata2, watchEff] }

/-- Workspace root the read/snapshot handlers resolve for a thread:
`thread?.metadata ? JSON.parse(thread.metadata) : {}`, then the
truthiness test `if (!workspacePath)`. -/
def boundWorkspace (threads : ThreadStore) (threadId : String) : Option String :=
  let metadata : Metadata :=
    match threads threadId with
    | some t => t.metadata.getD {}
    | none => {}
  truthyStr metadata.workspacePath

/-! ## Directory snapshot (`workspace:loadFromDisk`) -/

/-- A directory tree on disk: the argument the recursive `readDir` walk
consumes, with the stat data (size, mtime ISO string) attached to files. -/
inductive FsEntry where
  | file (name : String) (size : Nat) (mtime : String)
  | dir (name : String) (children : List FsEntry)

/-- One element of the `files` array the snapshot produces. -/
structure VEntry where
  path : String
  is_dir : Bool
  size : Option Nat := none
  modified_at : Option String := none
deriving Repr, DecidableEq

/-- The skip test of the walk:
`entry.name.startsWith('.') || entry.name === 'node_modules'`. -/
def skipEntry (n : String) : Bool := strStartsWith n "." || n == "node_modules"

/-- `relativePath ? relativePath + '/' + entry.name : entry.name`. -/
def childRel (relativePath name : String) : String :=
  if relativePath = "" then name else relativePath ++ "/" ++ name

mutual
/-- Contribution of a single directory entry to the `readDir` walk, given
the virtual relative path of the directory containing it. -/
def readDirEntry : FsEntry → String → List VEntry
  | .file n sz mt, rel =>
    if skipEntry n then [] else
    [{ path := "/" ++ childRel rel n, is_dir := false,
       size := some sz, modified_at := some mt }]
  | .dir n cs, rel =>
    if skipEntry n then [] else
    { path := "/" ++ childRel rel n, is_dir := true } :: readDir cs (childRel rel n)

/-- The recursive `readDir` walk of `workspace:loadFromDisk`: skip hidden
and `node_modules` entries, emit a directory before recursing into it,
emit files with their stat data. -/
def readDir : List FsEntry → String → List VEntry
  | [], _ => []
  | e :: rest, rel => readDirEntry e rel ++ readDir rest rel
end

/-- Recursively remove skipped entries (and their whole subtrees) from a
directory tree. -/
def pruneTree : List FsEntry → List FsEntry
  | [] => []
  | .file n sz mt :: rest =>
    (if skipEntry n then [] else [.file n sz mt]) ++ pruneTree rest
  | .dir n cs :: rest =>
    (if skipEntry n then [] else [.dir n (pruneTree cs)]) ++ pruneTree rest

/-- Join path segments with `/` (no leading separator). -/
def joinSegs : List String → String
  | [] => ""
  | [s] => s
  | s :: rest => s ++ "/" ++ joinSegs rest

/-- A relative path string reachable by the walk: either the initial empty
string or the join of a non-empty chain of non-skipped entry names. -/
def GoodRel (rel : String) : Prop :=
  rel = "" ∨ ∃ pre : List String, pre ≠ [] ∧ (∀ s ∈ pre, skipEntry s = false) ∧
    joinSegs pre = rel

/-- Result record of `workspace:loadFromDisk`. -/
structure SnapshotResult where
  success : Bool
  error : Option String := none
  files : List VEntry := []
  workspacePath : Option String := none
deriving Repr, DecidableEq

/-- The `workspace:loadFromDisk` handler: resolve the bound root from
thread metadata, fail with the no-workspace error when unset, otherwise
walk the tree found on disk at the root (`disk = .error e` models a
thrown readdir/stat fault, which aborts the whole snapshot). -/
def workspaceLoadFromDisk (threads : ThreadStore) (threadId : String)
    (disk : Except String (List FsEntry)) : SnapshotResult :=
  match boundWorkspace threads threadId with
  | none => { success := false, error := some "No workspace folder linked", files := [] }
  | some workspacePath =>
    match disk with
    | .error e => { success := false, error := some e, files := [] }
    | .ok entries =>
      { success := true, files := readDir entries "", workspacePath := some workspacePath }

/-! ## File reads (`workspace:readFile`, `workspace:readBinaryFile`) -/

/-- Stat data for one disk path. -/
structure FileStat where
  size : Nat
  mtimeIso : String
  isDir : Bool
deriving Repr, DecidableEq

/-- The filesystem as the read handlers consume it: `stat`, text read and
binary read keyed by absolute path, each fallible with a message
(a thrown `Error` whose message the handler captures). -/
structure FS where
  stat : String → Except String FileStat
  readUtf8 : String → Except String String
  readBuf : String → Except String (List Nat)

/-- Structured result of the two read handlers: `{success: true, content,
size, modified_at}` or `{success: false, error}`. -/
inductive ReadResult where
  | ok (content : String) (size : Nat) (modified_at : String)
  | err (error : String)
deriving Repr, DecidableEq

/-- `filePath.startsWith('/') ? filePath.slice(1) : filePath`. -/
def virtualToRelative (filePath : String) : String :=
  if strStartsWith filePath "/" then sliceFrom1 filePath else filePath

/-- Base64 alphabet. -/
def b64Alphabet : List Char :=
  "ABCDEFGHIJKLMNOPQRSTUVWXYZabcdefghijklmnopqrstuvwxyz0123456789+/".data

/-- Base64 digit for a 6-bit value. -/
def b64c (n : Nat) : Char := b64Alphabet.getD n '?'

/-- Base64 encoding of a byte list, three bytes to four digits with `=`
padding (`Buffer.prototype.toString('base64')`). -/
def base64Chunks : List Nat → List Char
  | a :: b :: c :: rest =>
    b64c (a / 4) :: b64c (a % 4 * 16 + b / 16) :: b64c (b % 16 * 4 + c / 64) ::
      b64c (c % 64) :: base64Chunks rest
  | [a, b] => [b64c (a / 4), b64c (a % 4 * 16 + b / 16), b64c (b % 16 * 4), '=']
  | [a] => [b64c (a / 4), b64c (a % 4 * 16), '=', '=']
  | [] => []

/-- JS `buffer.toString('base64')`. -/
def base64Encode (bytes : List Nat) : String := String.mk (base64Chunks bytes)

/-- Body of `workspace:readFile` once the workspace root is known:
virtual-to-disk conversion, the string-prefix containment check, the
directory check, then the UTF-8 read. -/
def readFileCore (workspacePath filePath : String) (fs : FS) : ReadResult :=
  let relativePath := virtualToRelative filePath
  let fullPath := posixJoin workspacePath relativePath
  let resolvedPath := posixResolve fullPath
  let resolvedWorkspace := posixResolve workspacePath
  if !(strStartsWith resolvedPath resolvedWorkspace) then
    .err "Access denied: path outside workspace"
  else
    match fs.stat fullPath with
    | .error e => .err e
    | .ok st =>
      if st.isDir then .err "Cannot read directory as file"
      else
        match fs.readUtf8 fullPath with
        | .error e => .err e
        | .ok content => .ok content st.size st.mtimeIso

/-- Body of `workspace:readBinaryFile` once the workspace root is known:
identical to the text read except the content is the base64 encoding of
the raw bytes. -/
def readBinaryFileCore (workspacePath filePath : String) (fs : FS) : ReadResult :=
  let relativePath := virtualToRelative filePath
  let fullPath := posixJoin workspacePath relativePath
  let resolvedPath := posixResolve fullPath
  let resolvedWorkspace := posixResolve workspacePath
  if !(strStartsWith resolvedPath resolvedWorkspace) then
    .err "Access denied: path outside workspace"
  else
    match fs.stat fullPath with
    | .error e => .err e
    | .ok st =>
      if st.isDir then .err "Cannot read directory as file"
      else
        match fs.readBuf fullPath with
        | .error e => .err e
        | .ok buffer => .ok (base64Encode buffer) st.size st.mtimeIso

/-- The `workspace:readFile` handler. -/
def workspaceReadFile (threads : ThreadStore) (threadId filePath : String)
    (fs : FS) : ReadResult :=
  match boundWorkspace threads threadId with
  | none => .err "No workspace folder linked"
  | some workspacePath => readFileCore workspacePath filePath fs

/-- The `workspace:readBinaryFile` handler. -/
def workspaceReadBinaryFile (threads : ThreadStore) (threadId filePath : String)
    (fs : FS) : ReadResult :=
  match boundWorkspace threads threadId with
  | none => .err "No workspace folder linked"
  | some workspacePath => readBinaryFileCore workspacePath filePath fs

/-- Per-entry form of `pruneTree`. -/
def pruneEntry : FsEntry → List FsEntry
  | .file n sz mt => if skipEntry n then [] else [.file n sz mt]
  | .dir n cs => if skipEntry n then [] else [.dir n (pruneTree cs)]

/-! ## Concrete fixtures used by witnesses and counterexamples -/

/-- A thread store with one thread `t1` whose workspace is `/ws`. -/
def exThreads : ThreadStore := fun id =>
  if id = "t1" then some { metadata := some { workspacePath := some "/ws" } } else none

/-- A small disk: `/ws/file.txt` (`"hi"`), a subdirectory `/ws/sub`, and a
sibling directory `/ws-evil` of the workspace holding `secret.txt`
(`"hello"`). -/
def exFS : FS where
  stat := fun p =>
    if p = "/ws/file.txt" then
      .ok { size := 2, mtimeIso := "2026-01-01T00:00:00.000Z", isDir := false }
    else if p = "/ws/sub" then
      .ok { size := 0, mtimeIso := "2026-01-01T00:00:00.000Z", isDir := true }
    else if p = "/ws-evil/secret.txt" then
      .ok { size := 5, mtimeIso := "2026-01-02T00:00:00.000Z", isDir := false }
    else .error "ENOENT: no such file or directory"
  readUtf8 := fun p =>
    if p = "/ws/file.txt" then .ok "hi"
    else if p = "/ws-evil/secret.txt" then .ok "hello"
    else .error "ENOENT: no such file or directory"
  readBuf := fun p =>
    if p = "/ws/file.txt" then .ok [104, 105]
    else if p = "/ws-evil/secret.txt" then .ok [104, 101, 108, 108, 111]
    else .error "ENOENT: no such file or directory"

/-- A discovered cloud model entry. -/
def exCloudModel : ModelConfig :=
  { id := "glm-4.6:cloud", name := formatModelName "glm-4.6:cloud",
    provider := "ollama-cloud", model := "glm-4.6:cloud",
    description := "Ollama Cloud model: glm-4.6:cloud", available := true,
    ollamaMode := some "cloud" }

/-- A credential store holding a key for `ollama-cloud` only. -/
def exHasKey : String → Bool := fun p => p == "ollama-cloud"

/-- The catalog entry local discovery produces for `llama3.2:3b`. -/
def exLocalEntry : ModelConfig :=
  { id := "llama3.2:3b", name := formatLocalModelName "llama3.2:3b",
    provider := "ollama-local", model := "llama3.2:3b",
    description := "Local Ollama model: " ++ formatLocalModelName "llama3.2:3b",
    available := true, ollamaMode := some "local" }

/-- A small directory tree with hidden and noise entries at two depths. -/
def exTree : List FsEntry :=
  [.file "a.txt" 2 "m1", .dir ".git" [.file "conf" 1 "m2"],
   .dir "src" [.file "b.ts" 3 "m3", .dir "node_modules" [.file "x.js" 4 "m4"],
               .file ".hidden" 1 "m5"]]

/-! ## Helper lemmas -/

theorem recomputeAvail_provider (k : String → Bool) (m : ModelConfig) :
    (recomputeAvail k m).provider = m.provider := rfl

theorem recomputeAvail_ollamaMode (k : String → Bool) (m : ModelConfig) :
    (recomputeAvail k m).ollamaMode = m.ollamaMode := rfl

theorem sliceFrom1_slashAppend (p : String) : sliceFrom1 ("/" ++ p) = p := by
  cases p with
  | mk d => simp [sliceFrom1, String.data_append]

theorem strStartsWith_slashAppend (p : String) : strStartsWith ("/" ++ p) "/" = true := by
  simp [strStartsWith, String.data_append, List.isPrefixOf_iff_prefix]

theorem virtualToRelative_slashAppend (p : String) (h : strStartsWith p "/" = false) :
    virtualToRelative ("/" ++ p) = virtualToRelative p := by
  simp [virtualToRelative, strStartsWith_slashAppend, sliceFrom1_slashAppend, h]

/-! ## Claim C10 -/

/-- Claim C10: for a virtual path not starting with `/`, the text and
binary read handlers behave identically on the rooted form `/` ++ p and
the unrooted form p: the single leading slash is stripped before joining
onto the root. -/
theorem readFile_leading_slash (threads : ThreadStore) (tid p : String) (fs : FS)
    (h : strStartsWith p "/" = false) :
    workspaceReadFile threads tid ("/" ++ p) fs = workspaceReadFile threads tid p fs ∧
    workspaceReadBinaryFile threads tid ("/" ++ p) fs =
      workspaceReadBinaryFile threads tid p fs := by
  unfold workspaceReadFile workspaceReadBinaryFile
  cases boundWorkspace threads tid with
  | none => exact ⟨rfl, rfl⟩
  | some ws =>
    simp only [readFileCore, readBinaryFileCore, virtualToRelative_slashAppend p h]
    exact ⟨by trivial, by trivial⟩

/-- Witness for C10 at a concrete store, path and filesystem. -/
theorem readFile_leading_slash_witness :
    workspaceReadFile exThreads "t1" "/file.txt" exFS =
      workspaceReadFile exThreads "t1" "file.txt" exFS ∧
    workspaceReadBinaryFile exThreads "t1" "/file.txt" exFS =
      workspaceReadBinaryFile exThreads "t1" "file.txt" exFS :=
  readFile_leading_slash exThreads "t1" "file.txt" exFS (by decide)

/-! ## Claim C9 -/

/-- Claim C9: `workspace:set` with a thread id for which the thread store
has no thread returns `null` and performs no state change: stores are
untouched and no effect (metadata write, watcher start or stop) is
performed. -/
theorem workspaceSet_missing_thread (settings : Settings) (threads : ThreadStore)
    (tid : String) (newPath : Option String) (htid : tid ≠ "") (ht : threads tid = none) :
    workspaceSet settings threads (some tid) newPath =
      { returned := none, settings := settings, threads := threads, effects := [] } := by
  unfold workspaceSet
  simp [truthyStr, htid, ht]

/-- Witness for C9: thread `t2` does not exist in the example store. -/
theorem workspaceSet_missing_thread_witness :
    workspaceSet {} exThreads (some "t2") (some "/p") =
      { returned := none, settings := {}, threads := exThreads, effects := [] } :=
  workspaceSet_missing_thread {} exThreads "t2" (some "/p") (by decide) (by decide)

/-! ## Claim C4 -/

theorem mem_fetchOllamaLocalModels (now : Int) (st : CacheState)
    (models : List RawLocalModel)
    (h : ¬ (st.cache.length > 0 ∧ now - st.cacheTime < OLLAMA_CACHE_TTL))
    (m : ModelConfig) (hm : m ∈ (fetchOllamaLocalModels now st (some models)).1) :
    supportsToolCalling m.id = true ∧ strEndsWith m.id ":cloud" = false ∧
      ∃ raw ∈ models, m.id = raw.name := by
  unfold fetchOllamaLocalModels at hm
  rw [if_neg h] at hm
  simp only [List.mem_filter, List.mem_map, List.mem_filter] at hm
  obtain ⟨⟨raw, ⟨hrawmem, hrawcloud⟩, rfl⟩, hsupp⟩ := hm
  refine ⟨hsupp, ?_, raw, hrawmem, rfl⟩
  simpa using hrawcloud

/-- Claim C4: `supportsToolCalling` on the four scenario names, and the
local-discovery hard gate: every entry returned by a (performed) local
fetch passes the tool-calling predicate and lacks the `:cloud` suffix,
and any raw model failing either test contributes no entry at all. -/
theorem supportsToolCalling_spec :
    supportsToolCalling "llama3.2:3b" = true ∧
    supportsToolCalling "gemma2:9b" = false ∧
    supportsToolCalling "functiongemma:latest" = true ∧
    supportsToolCalling "qwen2.5-coder:7b" = true ∧
    (∀ (now : Int) (st : CacheState) (models : List RawLocalModel),
      ¬ (st.cache.length > 0 ∧ now - st.cacheTime < OLLAMA_CACHE_TTL) →
      ∀ m ∈ (fetchOllamaLocalModels now st (some models)).1,
        supportsToolCalling m.id = true ∧ strEndsWith m.id ":cloud" = false) ∧
    (∀ (now : Int) (st : CacheState) (models : List RawLocalModel),
      ¬ (st.cache.length > 0 ∧ now - st.cacheTime < OLLAMA_CACHE_TTL) →
      ∀ raw ∈ models,
        (strEndsWith raw.name ":cloud" = true ∨ supportsToolCalling raw.name = false) →
        ∀ m ∈ (fetchOllamaLocalModels now st (some models)).1, m.id ≠ raw.name) := by
  refine ⟨by decide, by decide, by decide, by decide, ?_, ?_⟩
  · intro now st models h m hm
    have hc := mem_fetchOllamaLocalModels now st models h m hm
    exact ⟨hc.1, hc.2.1⟩
  · intro now st models h raw hraw hbad m hm heq
    have hc := mem_fetchOllamaLocalModels now st models h m hm
    rw [heq] at hc
    rcases hbad with hb | hb
    · rw [hc.2.1] at hb
      simp at hb
    · rw [hc.1] at hb
      simp at hb

/-- Witness for C4 at a concrete fetch. -/
theorem supportsToolCalling_spec_witness :
    (supportsToolCalling exLocalEntry.id = true ∧
      strEndsWith exLocalEntry.id ":cloud" = false) ∧
    exLocalEntry.id ≠ "gemma2:9b" :=
  ⟨supportsToolCalling_spec.2.2.2.2.1 0 { cache := [], cacheTime := 0 }
      [{ name := "llama3.2:3b" }, { name := "gemma2:9b" }] (by decide) exLocalEntry (by decide),
   supportsToolCalling_spec.2.2.2.2.2 0 { cache := [], cacheTime := 0 }
      [{ name := "llama3.2:3b" }, { name := "gemma2:9b" }] (by decide)
      { name := "gemma2:9b" } (by decide) (Or.inr (by decide)) exLocalEntry (by decide)⟩

/-! ## Claim C5 -/

/-- Claim C5 counterexample: binding the empty-string path to thread `t1`
and reading it back yields `null`, not the bound path, because both the
write path and `metadata.workspacePath || null` treat `""` as falsy. -/
theorem workspaceSet_get_empty_path :
    workspaceGet (workspaceSet {} exThreads (some "t1") (some "")).settings
      (workspaceSet {} exThreads (some "t1") (some "")).threads (some "t1") = none ∧
    (none : Option String) ≠ some "" := by
  exact ⟨by decide, by decide⟩

/-- Claim C5 (amended to non-empty paths): for an existing thread, set
then get returns the non-empty bound path, set of `null` makes get
return `null`, and a set for one thread leaves get for the global
fallback and for every other thread unchanged. -/
theorem workspaceSet_get (settings : Settings) (threads : ThreadStore) (tid : String)
    (t : ThreadRec) (htid : tid ≠ "") (ht : threads tid = some t) :
    (∀ p : String, p ≠ "" →
      workspaceGet (workspaceSet settings threads (some tid) (some p)).settings
        (workspaceSet settings threads (some tid) (some p)).threads (some tid) = some p) ∧
    workspaceGet (workspaceSet settings threads (some tid) none).settings
      (workspaceSet settings threads (some tid) none).threads (some tid) = none ∧
    (∀ (newPath : Option String) (other : Option String), other ≠ some tid →
      workspaceGet (workspaceSet settings threads (some tid) newPath).settings
        (workspaceSet settings threads (some tid) newPath).threads other
      = workspaceGet settings threads other) := by
  have htr : truthyStr (some tid) = some tid := by simp [truthyStr, htid]
  refine ⟨?_, ?_, ?_⟩
  · intro p hp
    simp only [workspaceSet, htr, ht]
    simp only [workspaceGet, htr]
    simp [truthyStr, hp]
  · simp only [workspaceSet, htr, ht]
    simp only [workspaceGet, htr]
    simp [truthyStr]
  · intro newPath other hother
    simp only [workspaceSet, htr, ht]
    unfold workspaceGet
    cases hoth : truthyStr other with
    | none => simp only [hoth]
    | some o =>
      have ho : o ≠ tid := by
        intro hcon
        cases other with
        | none => simp [truthyStr] at hoth
        | some s =>
          have hso : s = o := by
            by_cases hs : s = ""
            · simp [truthyStr, hs] at hoth
            · simp [truthyStr, hs] at hoth; exact hoth
          exact hother (by rw [hso, hcon])
      simp only [hoth]
      simp [ho]

/-- Witness for C5 at the concrete example store. -/
theorem workspaceSet_get_witness :
    workspaceGet (workspaceSet {} exThreads (some "t1") (some "/w2")).settings
      (workspaceSet {} exThreads (some "t1") (some "/w2")).threads (some "t1") = some "/w2" ∧
    workspaceGet (workspaceSet {} exThreads (some "t1") (some "/w2")).settings
      (workspaceSet {} exThreads (some "t1") (some "/w2")).threads (some "t2")
      = workspaceGet {} exThreads (some "t2") :=
  ⟨(workspaceSet_get {} exThreads "t1" { metadata := some { workspacePath := some "/ws" } }
      (by decide) (by decide)).1 "/w2" (by decide),
   (workspaceSet_get {} exThreads "t1" { metadata := some { workspacePath := some "/ws" } }
      (by decide) (by decide)).2.2 (some "/w2") (some "t2") (by decide)⟩

/-! ## Claim C2 -/

/-- Claim C2 counterexample: with no cloud API key but a fresh, non-empty
cloud cache (reachable by fetching with a key and then deleting the key),
the call neither serves the cache nor performs a fetch: it short-circuits
to the empty list.  This falsifies "the cache is served instead of
performing a network fetch exactly when now - fetchedAt < TTL and the
cache is non-empty" for the cloud cache. -/
theorem fetchCloud_nokey_fresh_cache :
    ({ cache := [exCloudModel], cacheTime := 200 } : CacheState).cache ≠ [] ∧
    (300 : Int) - ({ cache := [exCloudModel], cacheTime := 200 } : CacheState).cacheTime
      < OLLAMA_CACHE_TTL ∧
    fetchOllamaCloudModels none 300 { cache := [exCloudModel], cacheTime := 200 } none
      = ([], { cache := [exCloudModel], cacheTime := 200 }, false) ∧
    ([] : List ModelConfig) ≠ [exCloudModel] := by
  refine ⟨by decide, by decide, by decide, by decide⟩

/-- Claim C2 (amended: for the cloud source, under a configured API key):
each fetch serves its cache without a network call exactly when the cache
is non-empty and younger than the TTL; otherwise a network fetch is
performed; and after a fetch that stored an empty list the next call
always fetches again. -/
theorem cache_freshness :
    (∀ (now : Int) (st : CacheState) (net : Option (List RawLocalModel)),
      ((st.cache ≠ [] ∧ now - st.cacheTime < OLLAMA_CACHE_TTL) →
        fetchOllamaLocalModels now st net = (st.cache, st, false)) ∧
      (¬ (st.cache ≠ [] ∧ now - st.cacheTime < OLLAMA_CACHE_TTL) →
        (fetchOllamaLocalModels now st net).2.2 = true)) ∧
    (∀ (k : String) (now : Int) (st : CacheState) (net : Option (List RawCloudModel)),
      k ≠ "" →
      ((st.cache ≠ [] ∧ now - st.cacheTime < OLLAMA_CACHE_TTL) →
        fetchOllamaCloudModels (some k) now st net = (st.cache, st, false)) ∧
      (¬ (st.cache ≠ [] ∧ now - st.cacheTime < OLLAMA_CACHE_TTL) →
        (fetchOllamaCloudModels (some k) now st net).2.2 = true)) ∧
    (∀ (now now2 : Int) (st : CacheState) (net2 : Option (List RawLocalModel)),
      ¬ (st.cache ≠ [] ∧ now - st.cacheTime < OLLAMA_CACHE_TTL) →
      (fetchOllamaLocalModels now2
        ((fetchOllamaLocalModels now st (some [])).2.1) net2).2.2 = true) ∧
    (∀ (k : String) (now now2 : Int) (st : CacheState) (net2 : Option (List RawCloudModel)),
      k ≠ "" →
      ¬ (st.cache ≠ [] ∧ now - st.cacheTime < OLLAMA_CACHE_TTL) →
      (fetchOllamaCloudModels (some k) now2
        ((fetchOllamaCloudModels (some k) now st (some [])).2.1) net2).2.2 = true) := by
  have hlen : ∀ st : CacheState,
      (st.cache.length > 0 ∧ True) ↔ (st.cache ≠ [] ∧ True) := by
    intro st
    simp [List.length_pos]
  refine ⟨?_, ?_, ?_, ?_⟩
  · intro now st net
    constructor
    · intro hc
      unfold fetchOllamaLocalModels
      rw [if_pos ⟨List.length_pos.mpr hc.1, hc.2⟩]
    · intro hc
      unfold fetchOllamaLocalModels
      rw [if_neg (fun hcon => hc ⟨List.length_pos.mp hcon.1, hcon.2⟩)]
      cases net <;> rfl
  · intro k now st net hk
    have hkt : truthyStr (some k) = some k := by simp [truthyStr, hk]
    constructor
    · intro hc
      unfold fetchOllamaCloudModels
      rw [hkt, if_pos ⟨List.length_pos.mpr hc.1, hc.2⟩]
    · intro hc
      unfold fetchOllamaCloudModels
      rw [hkt, if_neg (fun hcon => hc ⟨List.length_pos.mp hcon.1, hcon.2⟩)]
      cases net <;> rfl
  · intro now now2 st net2 hc
    have hst : (fetchOllamaLocalModels now st (some [])).2.1
        = { cache := [], cacheTime := now } := by
      unfold fetchOllamaLocalModels
      rw [if_neg (fun hcon => hc ⟨List.length_pos.mp hcon.1, hcon.2⟩)]
      rfl
    rw [hst]
    unfold fetchOllamaLocalModels
    rw [if_neg (by simp)]
    cases net2 <;> rfl
  · intro k now now2 st net2 hk hc
    have hkt : truthyStr (some k) = some k := by simp [truthyStr, hk]
    have hst : (fetchOllamaCloudModels (some k) now st (some [])).2.1
        = { cache := [], cacheTime := now } := by
      unfold fetchOllamaCloudModels
      rw [hkt, if_neg (fun hcon => hc ⟨List.length_pos.mp hcon.1, hcon.2⟩)]
      rfl
    rw [hst]
    unfold fetchOllamaCloudModels
    rw [hkt, if_neg (by simp)]
    cases net2 <;> rfl

/-- Witness for C2 at concrete cache states. -/
theorem cache_freshness_witness :
    fetchOllamaLocalModels 100 { cache := [exCloudModel], cacheTime := 50 } none
      = ([exCloudModel], { cache := [exCloudModel], cacheTime := 50 }, false) ∧
    (fetchOllamaCloudModels (some "key") 999999999
      { cache := [exCloudModel], cacheTime := 0 } none).2.2 = true ∧
    (fetchOllamaLocalModels 7 ((fetchOllamaLocalModels 1
      { cache := [], cacheTime := 0 } (some [])).2.1) (some [])).2.2 = true :=
  ⟨(cache_freshness.1 100 { cache := [exCloudModel], cacheTime := 50 } none).1
      ⟨by decide, by decide⟩,
   (cache_freshness.2.1 "key" 999999999 { cache := [exCloudModel], cacheTime := 0 } none
      (by decide)).2 (by decide),
   cache_freshness.2.2.1 1 7 { cache := [], cacheTime := 0 } (some []) (by decide)⟩

/-! ## Claim C3 -/

/-- Claim C3: when both dynamic sources are empty, `models:list` is
exactly the static table with availability recomputed; when either is
non-empty, every entry of the result with an Ollama provider comes from
a dynamic source (the static Ollama placeholders are excluded). -/
theorem modelsList_merge :
    (∀ k : String → Bool, modelsList [] [] k = AVAILABLE_MODELS.map (recomputeAvail k)) ∧
    (∀ (cloud localModels : List ModelConfig) (k : String → Bool),
      cloud ≠ [] ∨ localModels ≠ [] →
      ∀ m ∈ modelsList cloud localModels k,
        m.provider = "ollama-local" ∨ m.provider = "ollama-cloud" →
        ∃ d, (d ∈ cloud ∨ d ∈ localModels) ∧ m = recomputeAvail k d) := by
  constructor
  · intro k
    simp [modelsList]
  · intro cloud localModels k hne m hm hprov
    have hcond : cloud.length > 0 ∨ localModels.length > 0 := by
      rcases hne with h | h
      · exact Or.inl (List.length_pos.mpr h)
      · exact Or.inr (List.length_pos.mpr h)
    simp only [modelsList, if_pos hcond, List.map_append, List.mem_append, List.mem_map]
      at hm
    rcases hm with (⟨d, hd, rfl⟩ | ⟨d, hd, rfl⟩) | ⟨d, hd, rfl⟩
    · exfalso
      have hdp := (List.mem_filter.mp hd).2
      rw [recomputeAvail_provider] at hprov
      simp only [Bool.and_eq_true, bne_iff_ne] at hdp
      rcases hprov with h | h
      · exact hdp.1 h
      · exact hdp.2 h
    · exact ⟨d, Or.inl hd, rfl⟩
    · exact ⟨d, Or.inr hd, rfl⟩

/-- Witness for C3: with one discovered cloud model, the only
Ollama-provider entry of the result is that dynamic model. -/
theorem modelsList_merge_witness :
    ∃ d, (d ∈ [exCloudModel] ∨ d ∈ ([] : List ModelConfig)) ∧
      recomputeAvail exHasKey exCloudModel = recomputeAvail exHasKey d :=
  modelsList_merge.2 [exCloudModel] [] exHasKey (Or.inl (by decide))
    (recomputeAvail exHasKey exCloudModel) (by decide) (by decide)

/-! ## Claim C8 -/

/-- Claim C8: in every `models:list` response an entry in local mode is
available, every other entry is available iff the credential store has a
key for its provider, and the flag is recomputed from scratch: changing
the availability flags carried by the input entries does not change the
response. -/
theorem modelsList_available :
    (∀ (cloud localModels : List ModelConfig) (k : String → Bool),
      ∀ m ∈ modelsList cloud localModels k,
        m.available = if m.ollamaMode == some "local" then true else k m.provider) ∧
    (∀ (cloud localModels : List ModelConfig) (k : String → Bool) (b b2 : Bool),
      modelsList (cloud.map fun m => { m with available := b })
        (localModels.map fun m => { m with available := b2 }) k
      = modelsList cloud localModels k) := by
  constructor
  · intro cloud localModels k m hm
    simp only [modelsList, List.mem_map] at hm
    rcases hm with ⟨d, _, rfl⟩
    rfl
  · intro cloud localModels k b b2
    have hcomp1 : (recomputeAvail k) ∘ (fun m : ModelConfig => { m with available := b })
        = recomputeAvail k := by
      funext m
      rfl
    have hcomp2 : (recomputeAvail k) ∘ (fun m : ModelConfig => { m with available := b2 })
        = recomputeAvail k := by
      funext m
      rfl
    simp only [modelsList, List.length_map, List.map_append, List.map_map, hcomp1, hcomp2]

/-- Witness for C8 at a concrete local entry. -/
theorem modelsList_available_witness :
    (recomputeAvail exHasKey exLocalEntry).available =
      if (recomputeAvail exHasKey exLocalEntry).ollamaMode == some "local" then true
      else exHasKey (recomputeAvail exHasKey exLocalEntry).provider :=
  modelsList_available.1 [] [exLocalEntry] exHasKey
    (recomputeAvail exHasKey exLocalEntry) (by decide)

/-! ## Claim C6 -/

/-- Claim C6: the two read handlers always produce a tagged result value;
with no bound workspace it is the `NoWorkspace` failure, on a directory
target the `IsDirectory` failure, on a stat or read fault a failure
carrying the underlying message, and on success the content plus size
and modified timestamp. -/
theorem readFile_error_taxonomy :
    (∀ (threads : ThreadStore) (tid fp : String) (fs : FS),
      boundWorkspace threads tid = none →
      workspaceReadFile threads tid fp fs = .err "No workspace folder linked" ∧
      workspaceReadBinaryFile threads tid fp fs = .err "No workspace folder linked") ∧
    (∀ (threads : ThreadStore) (tid fp ws : String) (fs : FS),
      boundWorkspace threads tid = some ws →
      strStartsWith (posixResolve (posixJoin ws (virtualToRelative fp)))
        (posixResolve ws) = true →
      (∀ e, fs.stat (posixJoin ws (virtualToRelative fp)) = .error e →
        workspaceReadFile threads tid fp fs = .err e ∧
        workspaceReadBinaryFile threads tid fp fs = .err e) ∧
      (∀ st, fs.stat (posixJoin ws (virtualToRelative fp)) = .ok st → st.isDir = true →
        workspaceReadFile threads tid fp fs = .err "Cannot read directory as file" ∧
        workspaceReadBinaryFile threads tid fp fs = .err "Cannot read directory as file") ∧
      (∀ st e, fs.stat (posixJoin ws (virtualToRelative fp)) = .ok st → st.isDir = false →
        fs.readUtf8 (posixJoin ws (virtualToRelative fp)) = .error e →
        workspaceReadFile threads tid fp fs = .err e) ∧
      (∀ st e, fs.stat (posixJoin ws (virtualToRelative fp)) = .ok st → st.isDir = false →
        fs.readBuf (posixJoin ws (virtualToRelative fp)) = .error e →
        workspaceReadBinaryFile threads tid fp fs = .err e) ∧
      (∀ st content, fs.stat (posixJoin ws (virtualToRelative fp)) = .ok st →
        st.isDir = false →
        fs.readUtf8 (posixJoin ws (virtualToRelative fp)) = .ok content →
        workspaceReadFile threads tid fp fs = .ok content st.size st.mtimeIso) ∧
      (∀ st buf, fs.stat (posixJoin ws (virtualToRelative fp)) = .ok st →
        st.isDir = false →
        fs.readBuf (posixJoin ws (virtualToRelative fp)) = .ok buf →
        workspaceReadBinaryFile threads tid fp fs
          = .ok (base64Encode buf) st.size st.mtimeIso)) := by
  refine ⟨?_, ?_⟩
  · intro threads tid fp fs h
    constructor <;> simp only [workspaceReadFile, workspaceReadBinaryFile, h]
  · intro threads tid fp ws fs hws hpre
    refine ⟨?_, ?_, ?_, ?_, ?_, ?_⟩
    · intro e hstat
      constructor <;>
        simp [workspaceReadFile, workspaceReadBinaryFile, hws, readFileCore,
          readBinaryFileCore, hpre, hstat]
    · intro st hstat hdir
      constructor <;>
        simp [workspaceReadFile, workspaceReadBinaryFile, hws, readFileCore,
          readBinaryFileCore, hpre, hstat, hdir]
    · intro st e hstat hdir hread
      simp [workspaceReadFile, hws, readFileCore, hpre, hstat, hdir, hread]
    · intro st e hstat hdir hread
      simp [workspaceReadBinaryFile, hws, readBinaryFileCore, hpre, hstat, hdir, hread]
    · intro st content hstat hdir hread
      simp [workspaceReadFile, hws, readFileCore, hpre, hstat, hdir, hread]
    · intro st buf hstat hdir hread
      simp [workspaceReadBinaryFile, hws, readBinaryFileCore, hpre, hstat, hdir, hread]

/-- Witness for C6: the four failure cases and the success case at the
concrete store and filesystem. -/
theorem readFile_error_taxonomy_witness :
    workspaceReadFile exThreads "t2" "/file.txt" exFS = .err "No workspace folder linked" ∧
    workspaceReadFile exThreads "t1" "/sub" exFS = .err "Cannot read directory as file" ∧
    workspaceReadFile exThreads "t1" "/nope.txt" exFS
      = .err "ENOENT: no such file or directory" ∧
    workspaceReadFile exThreads "t1" "/file.txt" exFS
      = .ok "hi" 2 "2026-01-01T00:00:00.000Z" ∧
    workspaceReadBinaryFile exThreads "t1" "/file.txt" exFS
      = .ok (base64Encode [104, 105]) 2 "2026-01-01T00:00:00.000Z" :=
  ⟨(readFile_error_taxonomy.1 exThreads "t2" "/file.txt" exFS (by decide)).1,
   ((readFile_error_taxonomy.2 exThreads "t1" "/sub" "/ws" exFS (by decide)
      (by decide)).2.1 { size := 0, mtimeIso := "2026-01-01T00:00:00.000Z", isDir := true }
      (by rfl) (by decide)).1,
   ((readFile_error_taxonomy.2 exThreads "t1" "/nope.txt" "/ws" exFS (by decide)
      (by decide)).1 "ENOENT: no such file or directory" (by rfl)).1,
   (readFile_error_taxonomy.2 exThreads "t1" "/file.txt" "/ws" exFS (by decide)
      (by decide)).2.2.2.2.1 { size := 2, mtimeIso := "2026-01-01T00:00:00.000Z", isDir := false }
      "hi" (by rfl) (by decide) (by rfl),
   (readFile_error_taxonomy.2 exThreads "t1" "/file.txt" "/ws" exFS (by decide)
      (by decide)).2.2.2.2.2 { size := 2, mtimeIso := "2026-01-01T00:00:00.000Z", isDir := false }
      [104, 105] (by rfl) (by decide) (by rfl)⟩

/-! ## Claim C1 -/

/-- Claim C1 counterexample: with workspace root `/ws`, the virtual path
`../ws-evil/secret.txt` resolves to `/ws-evil/secret.txt`, which is
outside the root (neither the root nor a descendant of it), yet both
read handlers succeed and return the file's content, because the
resolved path extends the resolved root as a plain string prefix. -/
theorem readFile_containment_counterexample :
    isWithin (posixResolve "/ws")
      (posixResolve (posixJoin "/ws" (virtualToRelative "../ws-evil/secret.txt"))) = false ∧
    workspaceReadFile exThreads "t1" "../ws-evil/secret.txt" exFS
      = .ok "hello" 5 "2026-01-02T00:00:00.000Z" ∧
    workspaceReadBinaryFile exThreads "t1" "../ws-evil/secret.txt" exFS
      = .ok "aGVsbG8=" 5 "2026-01-02T00:00:00.000Z" := by
  refine ⟨by decide, by decide, by decide⟩

/-- Claim C1 (amended): for a bound root, both read handlers fail with
the `AccessDenied` structured error and never touch the filesystem
exactly when the resolved candidate path does not have the resolved root
as a string prefix; when the prefix test passes the read proceeds (and
succeeds whenever stat and read succeed on a regular file), even for
resolved paths outside the root that merely extend the root's name. -/
theorem readFile_prefix_containment (threads : ThreadStore) (tid fp ws : String)
    (hws : boundWorkspace threads tid = some ws) :
    (strStartsWith (posixResolve (posixJoin ws (virtualToRelative fp)))
        (posixResolve ws) = false →
      ∀ fs : FS,
        workspaceReadFile threads tid fp fs
          = .err "Access denied: path outside workspace" ∧
        workspaceReadBinaryFile threads tid fp fs
          = .err "Access denied: path outside workspace") ∧
    (strStartsWith (posixResolve (posixJoin ws (virtualToRelative fp)))
        (posixResolve ws) = true →
      ∀ (fs : FS) (st : FileStat) (content : String) (buf : List Nat),
        fs.stat (posixJoin ws (virtualToRelative fp)) = .ok st → st.isDir = false →
        fs.readUtf8 (posixJoin ws (virtualToRelative fp)) = .ok content →
        fs.readBuf (posixJoin ws (virtualToRelative fp)) = .ok buf →
        workspaceReadFile threads tid fp fs = .ok content st.size st.mtimeIso ∧
        workspaceReadBinaryFile threads tid fp fs
          = .ok (base64Encode buf) st.size st.mtimeIso) := by
  constructor
  · intro hpre fs
    constructor <;>
      simp [workspaceReadFile, workspaceReadBinaryFile, hws, readFileCore,
        readBinaryFileCore, hpre]
  · intro hpre fs st content buf hstat hdir hread hbuf
    constructor <;>
      simp [workspaceReadFile, workspaceReadBinaryFile, hws, readFileCore,
        readBinaryFileCore, hpre, hstat, hdir, hread, hbuf]

/-- Witness for C1: a denied traversal and a permitted in-root read at
the concrete store and filesystem. -/
theorem readFile_prefix_containment_witness :
    (workspaceReadFile exThreads "t1" "/../etc/passwd" exFS
       = .err "Access denied: path outside workspace" ∧
     workspaceReadBinaryFile exThreads "t1" "/../etc/passwd" exFS
       = .err "Access denied: path outside workspace") ∧
    (workspaceReadFile exThreads "t1" "/file.txt" exFS
       = .ok "hi" 2 "2026-01-01T00:00:00.000Z" ∧
     workspaceReadBinaryFile exThreads "t1" "/file.txt" exFS
       = .ok (base64Encode [104, 105]) 2 "2026-01-01T00:00:00.000Z") :=
  ⟨(readFile_prefix_containment exThreads "t1" "/../etc/passwd" "/ws" (by decide)).1
      (by decide) exFS,
   (readFile_prefix_containment exThreads "t1" "/file.txt" "/ws" (by decide)).2
      (by decide) exFS { size := 2, mtimeIso := "2026-01-01T00:00:00.000Z", isDir := false }
      "hi" [104, 105] (by rfl) (by decide) (by rfl) (by rfl)⟩

/-! ## Claim C7 -/

theorem pruneTree_cons (e : FsEntry) (rest : List FsEntry) :
    pruneTree (e :: rest) = pruneEntry e ++ pruneTree rest := by
  cases e <;> simp [pruneTree, pruneEntry]

theorem readDir_append (a b : List FsEntry) (rel : String) :
    readDir (a ++ b) rel = readDir a rel ++ readDir b rel := by
  induction a with
  | nil => rfl
  | cons e rest ih => simp [List.cons_append, readDir, ih]

theorem readDir_pruneTree : ∀ (es : List FsEntry) (rel : String),
    readDir es rel = readDir (pruneTree es) rel :=
  readDir.induct (fun e rel => readDirEntry e rel = readDir (pruneEntry e) rel)
    (fun es rel => readDir es rel = readDir (pruneTree es) rel)
    (fun n sz mt rel h => by simp [readDirEntry, pruneEntry, readDir, h])
    (fun n sz mt rel h => by simp [readDirEntry, pruneEntry, readDir, h])
    (fun n cs rel h => by simp [readDirEntry, pruneEntry, readDir, h])
    (fun n cs rel h ih => by simp [readDirEntry, pruneEntry, readDir, h, ih])
    (fun rel => by simp [pruneTree])
    (fun e rest rel ih1 ih2 => by
      dsimp only at ih1 ih2 ⊢
      rw [pruneTree_cons]
      simp [readDir, readDir_append, ih1, ih2])

theorem joinSegs_append_one (pre : List String) (n : String) (h : pre ≠ []) :
    joinSegs (pre ++ [n]) = joinSegs pre ++ "/" ++ n := by
  induction pre with
  | nil => exact absurd rfl h
  | cons x rest ih =>
    cases rest with
    | nil => simp [joinSegs]
    | cons y t =>
      have hih : joinSegs ((y :: t) ++ [n]) = joinSegs (y :: t) ++ "/" ++ n := ih (by simp)
      show joinSegs (x :: ((y :: t) ++ [n])) = joinSegs (x :: y :: t) ++ "/" ++ n
      cases t with
      | nil =>
        simp [joinSegs, String.append_assoc]
      | cons z t2 =>
        rw [show joinSegs (x :: ((y :: z :: t2) ++ [n]))
              = x ++ "/" ++ joinSegs ((y :: z :: t2) ++ [n]) from rfl,
          hih, show joinSegs (x :: y :: z :: t2) = x ++ "/" ++ joinSegs (y :: z :: t2) from rfl]
        simp [String.append_assoc]

theorem childRel_good (rel n : String) (hrel : GoodRel rel) (hn : skipEntry n = false) :
    ∃ segs : List String, segs ≠ [] ∧ (∀ s ∈ segs, skipEntry s = false) ∧
      joinSegs segs = childRel rel n := by
  by_cases h0 : rel = ""
  · subst h0
    exact ⟨[n], by simp, by simp [hn], by simp [childRel, joinSegs]⟩
  · rcases hrel with h | ⟨pre, hne, hgood, hjoin⟩
    · exact absurd h h0
    · refine ⟨pre ++ [n], by simp, ?_, ?_⟩
      · intro s hs
        rcases List.mem_append.mp hs with h | h
        · exact hgood s h
        · rw [List.mem_singleton.mp h]
          exact hn
      · rw [joinSegs_append_one pre n hne, hjoin]
        simp [childRel, h0]

theorem readDir_segments : ∀ (es : List FsEntry) (rel : String), GoodRel rel →
    ∀ v ∈ readDir es rel, ∃ segs : List String, segs ≠ [] ∧
      (∀ s ∈ segs, skipEntry s = false) ∧ v.path = "/" ++ joinSegs segs :=
  readDir.induct
    (fun e rel => GoodRel rel → ∀ v ∈ readDirEntry e rel, ∃ segs : List String, segs ≠ [] ∧
      (∀ s ∈ segs, skipEntry s = false) ∧ v.path = "/" ++ joinSegs segs)
    (fun es rel => GoodRel rel → ∀ v ∈ readDir es rel, ∃ segs : List String, segs ≠ [] ∧
      (∀ s ∈ segs, skipEntry s = false) ∧ v.path = "/" ++ joinSegs segs)
    (fun n sz mt rel h => by
      intro hrel v hv
      simp [readDirEntry, h] at hv)
    (fun n sz mt rel h => by
      intro hrel v hv
      have hn : skipEntry n = false := by simpa using h
      simp [readDirEntry, hn] at hv
      obtain ⟨segs, hne, hgood, hjoin⟩ := childRel_good rel n hrel hn
      subst hv
      exact ⟨segs, hne, hgood, by rw [hjoin]⟩)
    (fun n cs rel h => by
      intro hrel v hv
      simp [readDirEntry, h] at hv)
    (fun n cs rel h ih => by
      intro hrel v hv
      have hn : skipEntry n = false := by simpa using h
      simp only [readDirEntry, hn, Bool.false_eq_true, if_false] at hv
      obtain ⟨segs, hne, hgood, hjoin⟩ := childRel_good rel n hrel hn
      rcases List.mem_cons.mp hv with rfl | hv2
      · exact ⟨segs, hne, hgood, by rw [hjoin]⟩
      · exact ih (Or.inr ⟨segs, hne, hgood, hjoin⟩) v hv2)
    (fun rel => by
      intro hrel v hv
      simp [readDir] at hv)
    (fun e rest rel ih1 ih2 => by
      intro hrel v hv
      rcases List.mem_append.mp (by simpa [readDir] using hv) with h | h
      · exact ih1 hrel v h
      · exact ih2 hrel v h)

/-- Claim C7: the snapshot walk equals the walk of the recursively pruned
tree (every hidden or `node_modules` entry is removed with its whole
subtree, at every depth, with no recursion into it), and consequently
every emitted virtual path is `/` followed by a chain of non-hidden,
non-noise name components. -/
theorem loadFromDisk_excludes_hidden :
    (∀ (threads : ThreadStore) (tid ws : String) (tree : List FsEntry),
      boundWorkspace threads tid = some ws →
      (workspaceLoadFromDisk threads tid (.ok tree)).files = readDir (pruneTree tree) "") ∧
    (∀ (tree : List FsEntry), ∀ v ∈ readDir tree "",
      ∃ segs : List String, segs ≠ [] ∧ (∀ s ∈ segs, skipEntry s = false) ∧
        v.path = "/" ++ joinSegs segs) := by
  constructor
  · intro threads tid ws tree hws
    simp only [workspaceLoadFromDisk, hws]
    exact readDir_pruneTree tree ""
  · intro tree v hv
    exact readDir_segments tree "" (Or.inl rfl) v hv

/-- Witness for C7 at a concrete tree with hidden and noise entries at
two depths. -/
theorem loadFromDisk_excludes_hidden_witness :
    (workspaceLoadFromDisk exThreads "t1" (.ok exTree)).files
      = readDir (pruneTree exTree) "" ∧
    (∃ segs : List String, segs ≠ [] ∧ (∀ s ∈ segs, skipEntry s = false) ∧
      ({ path := "/src/b.ts", is_dir := false, size := some 3,
         modified_at := some "m3" } : VEntry).path = "/" ++ joinSegs segs) :=
  ⟨loadFromDisk_excludes_hidden.1 exThreads "t1" "/ws" exTree (by decide),
   loadFromDisk_excludes_hidden.2 exTree
     { path := "/src/b.ts", is_dir := false, size := some 3, modified_at := some "m3" }
     (by decide)⟩
